import Mathlib

/-!
Verification of the analytics aggregation and scoring engine of
`skills/analytics-summarizer/scripts/analytics_summarizer.py`.

Modelling conventions (shallow embedding):
* Python floats are modelled as rationals (`ℚ`); Python's `round(x, n)` is
  modelled as rounding `x * 10^n` to the nearest integer (`round` on `ℚ`)
  and dividing back.  None of the concrete values appearing in the claims
  sit on a rounding half-way point, so the half-way convention is
  immaterial here.
* Python ints are modelled as `ℤ` (`_safe_int` can produce negatives).
* `datetime` parsing is abstracted: a date string is interpreted by a
  function `String → Option ℤ` (days on a time line; `none` models a
  `ValueError` from `datetime.fromisoformat`).  Universally quantified
  theorems quantify over this parse function; concrete theorems use
  `parseDateISO` below.
* Dictionaries that preserve insertion order are modelled as association
  lists built in first-seen key order.
-/

namespace AnalyticsSummarizer

/-- Model of Python `round(x, 2)` on our rational embedding of floats. -/
def round2 (q : ℚ) : ℚ := ((round (q * 100) : ℤ) : ℚ) / 100

/-- Model of Python `round(x, 1)`. -/
def round1 (q : ℚ) : ℚ := ((round (q * 10) : ℤ) : ℚ) / 10

/-- One niche's entry of the `NICHE_BENCHMARKS` table (platform_scale dict
flattened into the three per-platform fields). -/
structure NicheBenchmark where
  engagement_target : ℚ
  comment_rate_target : ℚ
  save_rate_target : ℚ
  share_rate_target : ℚ
  scale_linkedin : ℚ
  scale_instagram : ℚ
  scale_twitter : ℚ
  pillars : List String
deriving DecidableEq

def ttbpBench : NicheBenchmark :=
  { engagement_target := 3.0
    comment_rate_target := 0.5
    save_rate_target := 0.3
    share_rate_target := 0.2
    scale_linkedin := 1.0
    scale_instagram := 1.4
    scale_twitter := 0.6
    pillars := ["leadership", "career", "management", "promotion", "africa"] }

def cbBench : NicheBenchmark :=
  { engagement_target := 2.5
    comment_rate_target := 0.4
    save_rate_target := 0.4
    share_rate_target := 0.3
    scale_linkedin := 1.0
    scale_instagram := 1.6
    scale_twitter := 0.7
    pillars := ["books", "literature", "africa", "culture", "publishing", "chinua", "achebe"] }

def tundexaiBench : NicheBenchmark :=
  { engagement_target := 3.5
    comment_rate_target := 0.6
    save_rate_target := 0.5
    share_rate_target := 0.3
    scale_linkedin := 1.0
    scale_instagram := 1.2
    scale_twitter := 0.8
    pillars := ["ai", "claude", "chatgpt", "llm", "automation", "benchmark", "enterprise"] }

def wellwithtundeBench : NicheBenchmark :=
  { engagement_target := 2.0
    comment_rate_target := 0.3
    save_rate_target := 0.5
    share_rate_target := 0.4
    scale_linkedin := 1.0
    scale_instagram := 1.8
    scale_twitter := 0.5
    pillars := ["wellness", "health", "mindfulness", "habit", "body", "nutrition", "chronic"] }

def tundestalksmenBench : NicheBenchmark :=
  { engagement_target := 2.5
    comment_rate_target := 0.5
    save_rate_target := 0.4
    share_rate_target := 0.3
    scale_linkedin := 1.0
    scale_instagram := 1.5
    scale_twitter := 0.7
    pillars := ["men", "father", "relationship", "accountability", "brotherhood", "faith"] }

/-- `NICHE_BENCHMARKS.get(niche, NICHE_BENCHMARKS["ttbp"])` as used by
`_score_post` and `_analyze_niche`: unknown niches fall back to ttbp. -/
def nicheBenchmarksGet (niche : String) : NicheBenchmark :=
  if niche = "ttbp" then ttbpBench
  else if niche = "cb" then cbBench
  else if niche = "tundexai" then tundexaiBench
  else if niche = "wellwithtunde" then wellwithtundeBench
  else if niche = "tundestalksmen" then tundestalksmenBench
  else ttbpBench

/-- `bench["platform_scale"].get(platform, 1.0)`. -/
def platformScale (b : NicheBenchmark) (platform : String) : ℚ :=
  if platform = "linkedin" then b.scale_linkedin
  else if platform = "instagram" then b.scale_instagram
  else if platform = "twitter" then b.scale_twitter
  else 1.0

/-- Whether `niche` is a key of `NICHE_BENCHMARKS`. -/
def isKnownNiche (niche : String) : Bool :=
  niche = "ttbp" || niche = "cb" || niche = "tundexai" ||
  niche = "wellwithtunde" || niche = "tundestalksmen"

/-- The `PostMetrics` dataclass.  Field defaults mirror the dataclass
defaults. -/
structure PostMetrics where
  post_id : String
  niche : String
  platform : String
  published_at : String := ""
  content_preview : String := ""
  format_type : String := "unknown"
  hook_words : String := ""
  impressions : ℤ := 0
  reach : ℤ := 0
  likes : ℤ := 0
  comments : ℤ := 0
  shares : ℤ := 0
  saves : ℤ := 0
  clicks : ℤ := 0
  engagement_rate : ℚ := 0
  comment_rate : ℚ := 0
  save_rate : ℚ := 0
  share_rate : ℚ := 0
  click_rate : ℚ := 0
  benchmark_delta : ℚ := 0
  composite_score : ℚ := 0
  hashtags : List String := []
  notes : String := ""
deriving DecidableEq

/-- The divisor picked by `_compute_rates`:
`impressions if impressions > 0 else max(reach, 1)`. -/
def rateBase (p : PostMetrics) : ℚ :=
  if p.impressions > 0 then (p.impressions : ℚ) else ((max p.reach 1 : ℤ) : ℚ)

/-- `_compute_rates`. -/
def computeRates (p : PostMetrics) : PostMetrics :=
  { p with
    engagement_rate := round2 (((p.likes + p.comments + p.shares + p.saves : ℤ) : ℚ) / rateBase p * 100)
    comment_rate := round2 ((p.comments : ℚ) / rateBase p * 100)
    save_rate := round2 ((p.saves : ℚ) / rateBase p * 100)
    share_rate := round2 ((p.shares : ℚ) / rateBase p * 100)
    click_rate := round2 ((p.clicks : ℚ) / rateBase p * 100) }

/-- The engagement-rate component of `_score_post` (cap 50). -/
def engComponent (scaledTarget rate : ℚ) : ℚ :=
  if scaledTarget > 0 then min 50 (rate / scaledTarget * 50) else 0

/-- A capped `min(cap, rate / target * cap)` component of `_score_post`. -/
def cappedComponent (cap target rate : ℚ) : ℚ :=
  if target > 0 then min cap (rate / target * cap) else 0

/-- `_score_post`. -/
def scorePost (p : PostMetrics) : PostMetrics :=
  let bench := nicheBenchmarksGet p.niche
  let scaledTarget := bench.engagement_target * platformScale bench p.platform
  let engScore := engComponent scaledTarget p.engagement_rate
  let commentScore := cappedComponent 15 bench.comment_rate_target p.comment_rate
  let saveScore := cappedComponent 15 bench.save_rate_target p.save_rate
  let shareScore := cappedComponent 10 bench.share_rate_target p.share_rate
  let clickScore := min 10 (p.click_rate * 5)
  { p with
    composite_score := round1 (engScore + commentScore + saveScore + shareScore + clickScore)
    benchmark_delta := round2 (p.engagement_rate - scaledTarget) }

/-! ### Helper lemmas about rounding and the benchmark tables -/

lemma round_mono_q {x y : ℚ} (h : x ≤ y) : round x ≤ round y := by
  rw [round_eq, round_eq]
  exact Int.floor_mono (by linarith)

lemma round1_mono {x y : ℚ} (h : x ≤ y) : round1 x ≤ round1 y := by
  unfold round1
  have h1 : round (x * 10) ≤ round (y * 10) := round_mono_q (by linarith)
  have h10 : (0 : ℚ) ≤ 10 := by norm_num
  exact div_le_div_of_nonneg_right (by exact_mod_cast h1) (by norm_num)

lemma round1_nonneg {x : ℚ} (h : 0 ≤ x) : 0 ≤ round1 x := by
  have h0 : round1 (0 : ℚ) = 0 := by
    unfold round1
    norm_num
  calc (0 : ℚ) = round1 0 := h0.symm
    _ ≤ round1 x := round1_mono h

lemma round1_le_100 {x : ℚ} (h : x ≤ 100) : round1 x ≤ 100 := by
  have h100 : round1 (100 : ℚ) = 100 := by
    unfold round1
    norm_num [round_intCast]
  calc round1 x ≤ round1 100 := round1_mono h
    _ = 100 := h100

lemma bench_targets_pos (n : String) :
    0 < (nicheBenchmarksGet n).engagement_target ∧
    0 < (nicheBenchmarksGet n).comment_rate_target ∧
    0 < (nicheBenchmarksGet n).save_rate_target ∧
    0 < (nicheBenchmarksGet n).share_rate_target := by
  unfold nicheBenchmarksGet
  split_ifs <;>
    refine ⟨?_, ?_, ?_, ?_⟩ <;>
    norm_num [ttbpBench, cbBench, tundexaiBench, wellwithtundeBench, tundestalksmenBench]

lemma platformScale_pos (n p : String) :
    0 < platformScale (nicheBenchmarksGet n) p := by
  unfold nicheBenchmarksGet platformScale
  split_ifs <;>
    norm_num [ttbpBench, cbBench, tundexaiBench, wellwithtundeBench, tundestalksmenBench]

lemma engComponent_bounds {st r : ℚ} (hst : 0 < st) (hr : 0 ≤ r) :
    0 ≤ engComponent st r ∧ engComponent st r ≤ 50 := by
  unfold engComponent
  rw [if_pos hst]
  refine ⟨le_min (by norm_num) (by positivity), min_le_left _ _⟩

lemma cappedComponent_bounds {cap target r : ℚ} (hcap : 0 ≤ cap)
    (ht : 0 < target) (hr : 0 ≤ r) :
    0 ≤ cappedComponent cap target r ∧ cappedComponent cap target r ≤ cap := by
  unfold cappedComponent
  rw [if_pos ht]
  refine ⟨le_min hcap (by positivity), min_le_left _ _⟩

lemma engComponent_mono {st x y : ℚ} (hst : 0 < st) (h : x ≤ y) :
    engComponent st x ≤ engComponent st y := by
  unfold engComponent
  rw [if_pos hst, if_pos hst]
  apply min_le_min le_rfl
  exact mul_le_mul_of_nonneg_right (div_le_div_of_nonneg_right h hst.le) (by norm_num)

lemma cappedComponent_mono {cap target x y : ℚ} (hcap : 0 ≤ cap)
    (ht : 0 < target) (h : x ≤ y) :
    cappedComponent cap target x ≤ cappedComponent cap target y := by
  unfold cappedComponent
  rw [if_pos ht, if_pos ht]
  apply min_le_min le_rfl
  exact mul_le_mul_of_nonneg_right (div_le_div_of_nonneg_right h ht.le) hcap

/-! ### C5: composite score bounds -/

/-- C5: for every post whose five rates are non-negative, the composite
score computed by `_score_post` lies in the closed interval [0, 100]. -/
theorem c5_composite_score_bounds (p : PostMetrics)
    (h1 : 0 ≤ p.engagement_rate) (h2 : 0 ≤ p.comment_rate)
    (h3 : 0 ≤ p.save_rate) (h4 : 0 ≤ p.share_rate) (h5 : 0 ≤ p.click_rate) :
    0 ≤ (scorePost p).composite_score ∧ (scorePost p).composite_score ≤ 100 := by
  have hb := bench_targets_pos p.niche
  have hs := platformScale_pos p.niche p.platform
  have hst : 0 < (nicheBenchmarksGet p.niche).engagement_target *
      platformScale (nicheBenchmarksGet p.niche) p.platform := mul_pos hb.1 hs
  have he := engComponent_bounds hst h1
  have hc := cappedComponent_bounds (by norm_num : (0:ℚ) ≤ 15) hb.2.1 h2
  have hsa := cappedComponent_bounds (by norm_num : (0:ℚ) ≤ 15) hb.2.2.1 h3
  have hsh := cappedComponent_bounds (by norm_num : (0:ℚ) ≤ 10) hb.2.2.2 h4
  have hcl : 0 ≤ min 10 (p.click_rate * 5) ∧ min 10 (p.click_rate * 5) ≤ 10 :=
    ⟨le_min (by norm_num) (by positivity), min_le_left _ _⟩
  simp only [scorePost]
  constructor
  · exact round1_nonneg (by linarith [he.1, hc.1, hsa.1, hsh.1, hcl.1])
  · exact round1_le_100 (by linarith [he.2, hc.2, hsa.2, hsh.2, hcl.2])

/-- Concrete post used by the C5 witness. -/
def w5post : PostMetrics :=
  { post_id := "w5"
    niche := "ttbp"
    platform := "linkedin"
    engagement_rate := 1.5
    comment_rate := 0.5 }

/-- Witness for C5 at a concrete post. -/
theorem c5_witness :
    ((0:ℚ) ≤ w5post.engagement_rate ∧ (0:ℚ) ≤ w5post.comment_rate ∧
      (0:ℚ) ≤ w5post.save_rate ∧ (0:ℚ) ≤ w5post.share_rate ∧
      (0:ℚ) ≤ w5post.click_rate) ∧
    (0 ≤ (scorePost w5post).composite_score ∧
      (scorePost w5post).composite_score ≤ 100) :=
  ⟨by norm_num [w5post],
   c5_composite_score_bounds w5post (by norm_num [w5post]) (by norm_num [w5post])
     (by norm_num [w5post]) (by norm_num [w5post]) (by norm_num [w5post])⟩

/-! ### C6: monotonicity of the composite score -/

lemma scorePost_mono_core (p : PostMetrics)
    (e1 e2 c1 c2 s1 s2 sh1 sh2 cl1 cl2 : ℚ)
    (he : e1 ≤ e2) (hc : c1 ≤ c2) (hs : s1 ≤ s2) (hsh : sh1 ≤ sh2)
    (hcl : cl1 ≤ cl2) :
    (scorePost { p with
      engagement_rate := e1
      comment_rate := c1
      save_rate := s1
      share_rate := sh1
      click_rate := cl1 }).composite_score ≤
    (scorePost { p with
      engagement_rate := e2
      comment_rate := c2
      save_rate := s2
      share_rate := sh2
      click_rate := cl2 }).composite_score := by
  have hb := bench_targets_pos p.niche
  have hsc := platformScale_pos p.niche p.platform
  have hst : 0 < (nicheBenchmarksGet p.niche).engagement_target *
      platformScale (nicheBenchmarksGet p.niche) p.platform := mul_pos hb.1 hsc
  simp only [scorePost]
  apply round1_mono
  have m1 := engComponent_mono hst he
  have m2 := cappedComponent_mono (by norm_num : (0:ℚ) ≤ 15) hb.2.1 hc
  have m3 := cappedComponent_mono (by norm_num : (0:ℚ) ≤ 15) hb.2.2.1 hs
  have m4 := cappedComponent_mono (by norm_num : (0:ℚ) ≤ 10) hb.2.2.2 hsh
  have m5 : min 10 (cl1 * 5) ≤ min 10 (cl2 * 5) :=
    min_le_min le_rfl (by nlinarith)
  linarith

/-- C6: the composite score of `_score_post` is monotonically
non-decreasing in each of the five rate inputs taken separately, holding
everything else about the post fixed. -/
theorem c6_composite_score_monotone :
    (∀ (p : PostMetrics) (x y : ℚ), x ≤ y →
      (scorePost { p with engagement_rate := x }).composite_score ≤
      (scorePost { p with engagement_rate := y }).composite_score) ∧
    (∀ (p : PostMetrics) (x y : ℚ), x ≤ y →
      (scorePost { p with comment_rate := x }).composite_score ≤
      (scorePost { p with comment_rate := y }).composite_score) ∧
    (∀ (p : PostMetrics) (x y : ℚ), x ≤ y →
      (scorePost { p with save_rate := x }).composite_score ≤
      (scorePost { p with save_rate := y }).composite_score) ∧
    (∀ (p : PostMetrics) (x y : ℚ), x ≤ y →
      (scorePost { p with share_rate := x }).composite_score ≤
      (scorePost { p with share_rate := y }).composite_score) ∧
    (∀ (p : PostMetrics) (x y : ℚ), x ≤ y →
      (scorePost { p with click_rate := x }).composite_score ≤
      (scorePost { p with click_rate := y }).composite_score) := by
  refine ⟨?_, ?_, ?_, ?_, ?_⟩ <;> intro p x y h
  · exact scorePost_mono_core p x y p.comment_rate p.comment_rate p.save_rate
      p.save_rate p.share_rate p.share_rate p.click_rate p.click_rate
      h le_rfl le_rfl le_rfl le_rfl
  · exact scorePost_mono_core p p.engagement_rate p.engagement_rate x y
      p.save_rate p.save_rate p.share_rate p.share_rate p.click_rate p.click_rate
      le_rfl h le_rfl le_rfl le_rfl
  · exact scorePost_mono_core p p.engagement_rate p.engagement_rate
      p.comment_rate p.comment_rate x y p.share_rate p.share_rate
      p.click_rate p.click_rate le_rfl le_rfl h le_rfl le_rfl
  · exact scorePost_mono_core p p.engagement_rate p.engagement_rate
      p.comment_rate p.comment_rate p.save_rate p.save_rate x y
      p.click_rate p.click_rate le_rfl le_rfl le_rfl h le_rfl
  · exact scorePost_mono_core p p.engagement_rate p.engagement_rate
      p.comment_rate p.comment_rate p.save_rate p.save_rate
      p.share_rate p.share_rate x y le_rfl le_rfl le_rfl le_rfl h

/-- Concrete post used by the C6 witness. -/
def w6post : PostMetrics :=
  { post_id := "w6"
    niche := "ttbp"
    platform := "linkedin" }

/-- Witness for C6 at a concrete post and concrete rate pair. -/
theorem c6_witness :
    (0:ℚ) ≤ 1 ∧
    (scorePost { w6post with engagement_rate := 0 }).composite_score ≤
    (scorePost { w6post with engagement_rate := 1 }).composite_score :=
  ⟨by norm_num, c6_composite_score_monotone.1 w6post 0 1 (by norm_num)⟩

/-! ### C7: rate computation never divides by zero -/

/-- Concrete post of the C7 scenario: `impressions = 0`, `reach = 0`,
`likes = 5`. -/
def c7post : PostMetrics :=
  { post_id := "z"
    niche := "ttbp"
    platform := "linkedin"
    likes := 5 }

/-- C7: `_compute_rates` uses the base
`impressions if impressions > 0 else max(reach, 1)`, which is at least 1
(so no division by zero); each rate is `(numerator / base) * 100` rounded
to two decimals; and the `impressions = 0, reach = 0, likes = 5` post gets
engagement rate 500. -/
theorem c7_compute_rates_safe :
    (∀ p : PostMetrics, 1 ≤ rateBase p) ∧
    (∀ p : PostMetrics, 0 ≤ p.impressions → 0 ≤ p.reach → 0 ≤ p.likes →
      0 ≤ p.comments → 0 ≤ p.shares → 0 ≤ p.saves → 0 ≤ p.clicks →
      (computeRates p).engagement_rate =
        round2 (((p.likes + p.comments + p.shares + p.saves : ℤ) : ℚ) / rateBase p * 100) ∧
      (computeRates p).comment_rate = round2 ((p.comments : ℚ) / rateBase p * 100) ∧
      (computeRates p).save_rate = round2 ((p.saves : ℚ) / rateBase p * 100) ∧
      (computeRates p).share_rate = round2 ((p.shares : ℚ) / rateBase p * 100) ∧
      (computeRates p).click_rate = round2 ((p.clicks : ℚ) / rateBase p * 100)) ∧
    (computeRates c7post).engagement_rate = 500 := by
  refine ⟨?_, ?_, ?_⟩
  · intro p
    unfold rateBase
    split_ifs with h
    · exact_mod_cast h
    · have h1 : (1 : ℤ) ≤ max p.reach 1 := le_max_right _ _
      exact_mod_cast h1
  · intro p _ _ _ _ _ _ _
    refine ⟨rfl, rfl, rfl, rfl, rfl⟩
  · norm_num [computeRates, c7post, rateBase, round2]

/-- Witness for C7 at a concrete post with positive impressions. -/
def w7post : PostMetrics :=
  { post_id := "w7"
    niche := "ttbp"
    platform := "linkedin"
    impressions := 1000
    likes := 10
    comments := 5 }

/-- Witness for C7: the hypotheses of the second conjunct discharged at a
concrete post. -/
theorem c7_witness :
    ((0:ℤ) ≤ w7post.impressions ∧ (0:ℤ) ≤ w7post.reach ∧ (0:ℤ) ≤ w7post.likes ∧
      (0:ℤ) ≤ w7post.comments ∧ (0:ℤ) ≤ w7post.shares ∧ (0:ℤ) ≤ w7post.saves ∧
      (0:ℤ) ≤ w7post.clicks) ∧
    (computeRates w7post).engagement_rate =
      round2 (((w7post.likes + w7post.comments + w7post.shares + w7post.saves : ℤ) : ℚ) /
        rateBase w7post * 100) :=
  ⟨by norm_num [w7post],
   (c7_compute_rates_safe.2.1 w7post (by norm_num [w7post]) (by norm_num [w7post])
      (by norm_num [w7post]) (by norm_num [w7post]) (by norm_num [w7post])
      (by norm_num [w7post]) (by norm_num [w7post])).1⟩

/-! ### Statistics and ordered-dict helpers -/

/-- `statistics.mean` on our rational model (sum divided by length; only
ever applied to nonempty lists, mirroring the callers). -/
def mean (l : List ℚ) : ℚ := l.sum / (l.length : ℚ)

def insertAscQ (x : ℚ) : List ℚ → List ℚ
  | [] => [x]
  | y :: ys => if x ≤ y then x :: y :: ys else y :: insertAscQ x ys

def sortAscQ : List ℚ → List ℚ
  | [] => []
  | x :: xs => insertAscQ x (sortAscQ xs)

/-- `statistics.median`: middle element of the ascending sort, or the
average of the two middle elements. -/
def median (l : List ℚ) : ℚ :=
  let s := sortAscQ l
  let n := s.length
  if n % 2 = 1 then s.getD (n / 2) 0
  else (s.getD (n / 2 - 1) 0 + s.getD (n / 2) 0) / 2

/-- Stable insertion step for the descending sort by composite score:
an incoming (earlier) post goes in front of the first post whose score is
not larger, which reproduces the stability of Python's
`sorted(..., key=composite_score, reverse=True)`. -/
def insertByScore (x : PostMetrics) : List PostMetrics → List PostMetrics
  | [] => [x]
  | y :: ys =>
    if y.composite_score ≤ x.composite_score then x :: y :: ys
    else y :: insertByScore x ys

/-- `sorted(posts, key=lambda p: p.composite_score, reverse=True)`
(stable descending sort). -/
def sortByScoreDesc : List PostMetrics → List PostMetrics
  | [] => []
  | x :: xs => insertByScore x (sortByScoreDesc xs)

lemma length_insertByScore (x : PostMetrics) (l : List PostMetrics) :
    (insertByScore x l).length = l.length + 1 := by
  induction l with
  | nil => rfl
  | cons y ys ih =>
    unfold insertByScore
    split_ifs <;> simp [ih]

lemma length_sortByScoreDesc (l : List PostMetrics) :
    (sortByScoreDesc l).length = l.length := by
  induction l with
  | nil => rfl
  | cons x xs ih => simp [sortByScoreDesc, length_insertByScore, ih]

/-- `dict.setdefault(key, []).append(v)` bookkeeping: insertion-ordered
association list of value lists. -/
def addToGroup (groups : List (String × List ℚ)) (k : String) (v : ℚ) :
    List (String × List ℚ) :=
  match groups with
  | [] => [(k, [v])]
  | g :: rest => if g.1 = k then (g.1, g.2 ++ [v]) :: rest
                 else g :: addToGroup rest k v

/-- Buckets of engagement rates per format type, in first-seen order. -/
def fmtGroups (posts : List PostMetrics) : List (String × List ℚ) :=
  posts.foldl (fun acc p => addToGroup acc p.format_type p.engagement_rate) []

/-- `max(d, key=d.get)` over an insertion-ordered dict: the first key
attaining the maximal value. -/
def argmaxFirst (l : List (String × ℚ)) : Option String :=
  (l.foldl (fun best kv =>
    match best with
    | none => some kv
    | some b => if kv.2 > b.2 then some kv else best) none).map (fun kv => kv.1)

/-- `min(d, key=d.get)`: first key attaining the minimal value. -/
def argminFirst (l : List (String × ℚ)) : Option String :=
  (l.foldl (fun best kv =>
    match best with
    | none => some kv
    | some b => if kv.2 < b.2 then some kv else best) none).map (fun kv => kv.1)

/-- `_analyze_formats`: breakdown, best format, worst format. -/
def analyzeFormats (posts : List PostMetrics) :
    List (String × ℚ) × String × String :=
  let breakdown := (fmtGroups posts).map (fun g => (g.1, round2 (mean g.2)))
  if breakdown.isEmpty then ([], "unknown", "unknown")
  else (breakdown, (argmaxFirst breakdown).getD "unknown",
        (argminFirst breakdown).getD "unknown")

/-- `days_map` of `_analyze_timing`. -/
def daysMap (w : ℕ) : String :=
  if w = 0 then "Mon" else if w = 1 then "Tue" else if w = 2 then "Wed"
  else if w = 3 then "Thu" else if w = 4 then "Fri" else if w = 5 then "Sat"
  else "Sun"

/-- The `f"{dt.hour:02d}:00"` label. -/
def hourLabel (h : ℕ) : String :=
  (if h < 10 then "0" else "") ++ toString h ++ ":00"

/-- `_analyze_timing`.  The `datetime.fromisoformat` call on the full
timestamp is abstracted by `parseDT`, producing `(weekday, hour)` or
`none` for an unparseable timestamp (which the code skips). -/
def analyzeTiming (parseDT : String → Option (ℕ × ℕ))
    (posts : List PostMetrics) : List (String × ℚ) × String × String :=
  let pairs := posts.filterMap
    (fun p => (parseDT p.published_at).map (fun wh => (wh, p.engagement_rate)))
  let dayGroups := pairs.foldl (fun acc x => addToGroup acc (daysMap x.1.1) x.2) []
  let hourGroups := pairs.foldl (fun acc x => addToGroup acc (hourLabel x.1.2) x.2) []
  let dayAvgs := dayGroups.map (fun g => (g.1, round2 (mean g.2)))
  let hourAvgs := hourGroups.map (fun g => (g.1, round2 (mean g.2)))
  (dayAvgs ++ hourAvgs, (argmaxFirst dayAvgs).getD "N/A",
   (argmaxFirst hourAvgs).getD "N/A")

def insertStr (x : String) : List String → List String
  | [] => [x]
  | y :: ys => if x < y then x :: y :: ys else y :: insertStr x ys

/-- `sorted` on strings (ascending, lexicographic). -/
def sortStrAsc : List String → List String
  | [] => []
  | x :: xs => insertStr x (sortStrAsc xs)

/-- `_analyze_hashtag_performance`. -/
def analyzeHashtagPerformance (posts : List PostMetrics) : List (String × ℚ) :=
  let groups := posts.foldl (fun acc p =>
    if p.hashtags.isEmpty then acc
    else addToGroup acc (String.intercalate " " (sortStrAsc (p.hashtags.take 4)))
           p.engagement_rate) []
  groups.map (fun g => (g.1, round2 (mean g.2)))

/-! ### Pattern detection (`_detect_patterns`) -/

/-- A detected pattern.  Constructors abstract the five f-string findings
of `_detect_patterns`, carrying the data interpolated into each message;
the constructor identifies which rule fired. -/
inductive Finding where
  | formatOver (fmt : String) (avg othersAvg : ℚ)
  | formatUnder (fmt : String) (avg othersAvg : ℚ)
  | highSave (dominant : String)
  | highComment (dominant : String)
  | lowPerformer (dominant : String)
deriving DecidableEq

/-- `max(set(formats), key=formats.count)`: an element of maximal
multiplicity.  CPython iterates the set in unspecified order; the model
breaks ties by first occurrence in the list.  Only the label inside a
finding depends on this; the number and order of findings do not. -/
def maxByCount (l : List String) : String :=
  ((l.foldl (fun best x =>
    match best with
    | none => some x
    | some b => if l.count x > l.count b then some x else best) none)).getD "unknown"

def dominantFormat (ps : List PostMetrics) : String :=
  maxByCount (ps.map (fun p => p.format_type))

/-- The format over/under-performance test of one loop iteration of
`_detect_patterns` (rates of all other formats combined, thresholds 1.5
and 0.7). -/
def formatFindingOf (groups : List (String × List ℚ)) (g : String × List ℚ) :
    Option Finding :=
  let avg := mean g.2
  let others := (groups.filter (fun g2 => g2.1 ≠ g.1)).flatMap (fun g2 => g2.2)
  if others.isEmpty then none
  else if avg > mean others * 1.5 then some (Finding.formatOver g.1 avg (mean others))
  else if avg < mean others * 0.7 then some (Finding.formatUnder g.1 avg (mean others))
  else none

/-- `patterns.append(finding)` guarded on whether a rule fired. -/
def appendOpt (acc : List Finding) (o : Option Finding) : List Finding :=
  match o with
  | some f => acc ++ [f]
  | none => acc

/-- `_detect_patterns`: rule groups evaluated in fixed order, findings
appended as computed, capped at five. -/
def detectPatterns (posts : List PostMetrics) : List Finding :=
  if posts.isEmpty then []
  else
    let groups := fmtGroups posts
    let patterns1 := groups.foldl
      (fun acc g => appendOpt acc (formatFindingOf groups g)) []
    let highSave := posts.filter (fun p => p.save_rate > 0.5)
    let patterns2 :=
      if highSave.length ≥ 2 then patterns1 ++ [Finding.highSave (dominantFormat highSave)]
      else patterns1
    let highComment := posts.filter (fun p => p.comment_rate > 0.5)
    let patterns3 :=
      if highComment.isEmpty then patterns2
      else patterns2 ++ [Finding.highComment (dominantFormat highComment)]
    let low := posts.filter (fun p => p.benchmark_delta < -1.5)
    let patterns4 :=
      if low.length ≥ 2 then patterns3 ++ [Finding.lowPerformer (dominantFormat low)]
      else patterns3
    patterns4.take 5

/-- Rule 1 of `_detect_patterns` in isolation: the format
over/under-performance findings, in format first-seen order. -/
def formatFindings (posts : List PostMetrics) : List Finding :=
  (fmtGroups posts).filterMap (formatFindingOf (fmtGroups posts))

/-- Rule 2 in isolation: the high-save finding (needs ≥ 2 posts with
save rate above 0.5). -/
def saveFindings (posts : List PostMetrics) : List Finding :=
  let hs := posts.filter (fun p => p.save_rate > 0.5)
  if hs.length ≥ 2 then [Finding.highSave (dominantFormat hs)] else []

/-- Rule 3 in isolation: the high-comment finding (needs ≥ 1 post with
comment rate above 0.5). -/
def commentFindings (posts : List PostMetrics) : List Finding :=
  let hc := posts.filter (fun p => p.comment_rate > 0.5)
  if hc.isEmpty then [] else [Finding.highComment (dominantFormat hc)]

/-- Rule 4 in isolation: the low-performer finding (needs ≥ 2 posts with
benchmark delta below −1.5). -/
def lowFindings (posts : List PostMetrics) : List Finding :=
  let lo := posts.filter (fun p => p.benchmark_delta < -1.5)
  if lo.length ≥ 2 then [Finding.lowPerformer (dominantFormat lo)] else []

/-! ### Recommendations (`_build_niche_recommendations`) -/

/-- One recommendation string of `_build_niche_recommendations`,
abstracted to the rule that produced it plus the interpolated data. -/
inductive Rec where
  | belowTarget (niche : String) (avg delta target : ℚ) (bestFormat : String)
  | shiftMix (niche bestFormat : String) (bestRate : ℚ) (worstFormat : String) (worstRate : ℚ)
  | timing (niche day hour : String)
  | repurpose (niche : String) (topRate : ℚ) (fmt : String)
  | saveSignal (niche : String) (avgSave : ℚ)

def lookupD (l : List (String × ℚ)) (k : String) (d : ℚ) : ℚ :=
  match l.find? (fun kv => kv.1 = k) with
  | some kv => kv.2
  | none => d

/-- `NICHE_BENCHMARKS.get(perf.niche, \x7b\x7d).get("save_rate_target", 0.3)`. -/
def saveTargetOf (niche : String) : ℚ :=
  if isKnownNiche niche then (nicheBenchmarksGet niche).save_rate_target else 0.3

/-- `NichePerformance`.  `period_start`/`period_end` carry the parsed
min/max publish dates (`none` models the "N/A" case); `patterns` and
`recommendations` use the abstract finding/recommendation types above. -/
structure NichePerformance where
  niche : String
  platform : String
  period_start : Option ℤ
  period_end : Option ℤ
  post_count : ℕ
  avg_engagement_rate : ℚ
  median_engagement_rate : ℚ
  benchmark_target : ℚ
  benchmark_status : String
  top_performers : List PostMetrics
  bottom_performers : List PostMetrics
  format_breakdown : List (String × ℚ)
  best_format : String
  worst_format : String
  timing_insights : List (String × ℚ)
  best_day : String
  best_hour : String
  patterns : List Finding
  hashtag_performance : List (String × ℚ)
  recommendations : List Rec
  trend : String
  trend_delta : ℚ

/-- `_build_niche_recommendations`. -/
def buildNicheRecommendations (perf : NichePerformance)
    (allPosts : List PostMetrics) : List Rec :=
  let recs1 : List Rec :=
    if perf.benchmark_status = "BELOW" then
      [Rec.belowTarget perf.niche perf.avg_engagement_rate
        (abs (perf.avg_engagement_rate - perf.benchmark_target))
        perf.benchmark_target perf.best_format]
    else []
  let recs2 :=
    if perf.best_format ≠ "unknown" ∧ perf.worst_format ≠ "unknown" then
      (if lookupD perf.format_breakdown perf.best_format 0 >
          lookupD perf.format_breakdown perf.worst_format 0 * 1.5 then
        recs1 ++ [Rec.shiftMix perf.niche perf.best_format
          (lookupD perf.format_breakdown perf.best_format 0)
          perf.worst_format (lookupD perf.format_breakdown perf.worst_format 0)]
      else recs1)
    else recs1
  let recs3 :=
    if perf.best_day ≠ "N/A" then
      recs2 ++ [Rec.timing perf.niche perf.best_day perf.best_hour]
    else recs2
  let recs4 :=
    match perf.top_performers.head? with
    | some top => recs3 ++ [Rec.repurpose perf.niche top.engagement_rate top.format_type]
    | none => recs3
  let avgSave :=
    if allPosts.isEmpty then 0
    else mean ((allPosts.filter (fun p => p.niche = perf.niche)).map (fun p => p.save_rate))
  let recs5 :=
    if avgSave > saveTargetOf perf.niche * 1.5 then
      recs4 ++ [Rec.saveSignal perf.niche avgSave]
    else recs4
  recs5.take 4

/-- `_analyze_niche`.  `parseDate` abstracts
`datetime.fromisoformat(published_at.split("T")[0])` (day index or `none`
for a `ValueError`); `parseDT` abstracts the full-timestamp parse used by
`_analyze_timing`. -/
def analyzeNiche (parseDate : String → Option ℤ)
    (parseDT : String → Option (ℕ × ℕ))
    (posts : List PostMetrics) (niche platform : String) :
    Option NichePerformance :=
  let filtered := posts.filter (fun p => p.niche = niche ∧ p.platform = platform)
  if filtered.isEmpty then none
  else
    let bench := nicheBenchmarksGet niche
    let target := bench.engagement_target * platformScale bench platform
    let sortedPosts := sortByScoreDesc filtered
    let avgEng := round2 (mean (filtered.map (fun p => p.engagement_rate)))
    let medEng := round2 (median (filtered.map (fun p => p.engagement_rate)))
    let status :=
      if avgEng ≥ target then "ABOVE"
      else if avgEng ≥ target * 0.85 then "MEETING"
      else "BELOW"
    let fb := analyzeFormats filtered
    let ti := analyzeTiming parseDT filtered
    let pubDates := filtered.filterMap (fun p => parseDate p.published_at)
    let perf0 : NichePerformance :=
      { niche := niche
        platform := platform
        period_start := pubDates.min?
        period_end := pubDates.max?
        post_count := filtered.length
        avg_engagement_rate := avgEng
        median_engagement_rate := medEng
        benchmark_target := round2 target
        benchmark_status := status
        top_performers := sortedPosts.take 3
        bottom_performers := (sortedPosts.drop (sortedPosts.length - 3)).reverse
        format_breakdown := fb.1
        best_format := fb.2.1
        worst_format := fb.2.2
        timing_insights := ti.1
        best_day := ti.2.1
        best_hour := ti.2.2
        patterns := detectPatterns filtered
        hashtag_performance := analyzeHashtagPerformance filtered
        recommendations := []
        trend := "STABLE"
        trend_delta := 0 }
    some { perf0 with recommendations := buildNicheRecommendations perf0 filtered }

/-- Character-level `split` used by the concrete date parse below. -/
def splitOnChar (c : Char) : List Char → List (List Char)
  | [] => [[]]
  | x :: xs =>
    match splitOnChar c xs with
    | [] => [[]]
    | g :: gs => if x = c then [] :: g :: gs else (x :: g) :: gs

/-- Decimal parse of a nonempty digit run. -/
def digitsToNat? (l : List Char) : Option ℕ :=
  if l.isEmpty then none
  else l.foldl (fun acc? c =>
    acc?.bind (fun acc =>
      if c.isDigit then some (acc * 10 + (c.toNat - 48)) else none)) (some 0)

/-- Concrete model of `datetime.fromisoformat(s.split("T")[0])`: accepts a
`Y-M-D` date and maps it to an integer day index via an encoding that is
strictly monotone in `(year, month, day)` and exact (one unit per day)
within a month; anything else is `none` (a `ValueError`). -/
def parseDateISO (s : String) : Option ℤ :=
  match splitOnChar '-' ((splitOnChar 'T' s.data).headD []) with
  | [y, m, d] =>
    match digitsToNat? y, digitsToNat? m, digitsToNat? d with
    | some yn, some mn, some dn =>
      if 1 ≤ mn ∧ mn ≤ 12 ∧ 1 ≤ dn ∧ dn ≤ 31 then
        some (372 * (yn : ℤ) + 31 * (mn : ℤ) + (dn : ℤ))
      else none
    | _, _, _ => none
  | _ => none

/-- Timestamp parse used in the concrete scenarios below: their posts all
carry an empty `published_at`, on which `datetime.fromisoformat` raises,
so the parse yields `none`. -/
def parseDTEmpty : String → Option (ℕ × ℕ) := fun _ => none

/-! ### C8: pattern detector cap and rule order -/

lemma foldl_append_filterMap {α : Type} (f : α → Option Finding) (l : List α)
    (init : List Finding) :
    l.foldl (fun acc a => appendOpt acc (f a)) init = init ++ l.filterMap f := by
  induction l generalizing init with
  | nil => simp
  | cons x xs ih =>
    cases hx : f x with
    | none =>
      simp only [List.foldl_cons, List.filterMap_cons, hx]
      rw [ih]
      simp [appendOpt]
    | some b =>
      simp only [List.foldl_cons, List.filterMap_cons, hx]
      rw [ih]
      simp [appendOpt]

/-- C8: `_detect_patterns` returns at most five findings, and the list it
returns is the rule-ordered concatenation (format over/under-performance
findings in format first-seen order, then the high-save finding, then the
high-comment finding, then the low-performer finding) truncated to five —
never reordered by magnitude. -/
theorem c8_detect_patterns_order_cap (posts : List PostMetrics) :
    (detectPatterns posts).length ≤ 5 ∧
    detectPatterns posts =
      (formatFindings posts ++ saveFindings posts ++ commentFindings posts ++
        lowFindings posts).take 5 := by
  have key : detectPatterns posts =
      (formatFindings posts ++ saveFindings posts ++ commentFindings posts ++
        lowFindings posts).take 5 := by
    by_cases hemp : posts = []
    · subst hemp
      simp [detectPatterns, formatFindings, saveFindings, commentFindings,
        lowFindings, fmtGroups]
    · simp only [detectPatterns, formatFindings, saveFindings, commentFindings,
        lowFindings]
      rw [if_neg (by simpa [List.isEmpty_iff] using hemp)]
      rw [foldl_append_filterMap]
      simp only [List.nil_append]
      split_ifs <;> simp [List.append_assoc]
  refine ⟨?_, key⟩
  rw [key]
  exact List.length_take_le 5 _

/-! ### C1: the three-post LinkedIn scenario -/

/-- A raw scenario post of the C1 claim: niche ttbp, LinkedIn,
1000 impressions, 5 comments, a given number of likes, everything else
zero. -/
def c1raw (pid : String) (lk : ℤ) : PostMetrics :=
  { post_id := pid
    niche := "ttbp"
    platform := "linkedin"
    impressions := 1000
    likes := lk
    comments := 5 }

/-- The three scenario posts, rated and scored the way every parser does
it (`_score_post(_compute_rates(p))`). -/
def c1posts : List PostMetrics :=
  [scorePost (computeRates (c1raw "p1" 10)),
   scorePost (computeRates (c1raw "p2" 50)),
   scorePost (computeRates (c1raw "p3" 100))]

/-- The scored form of the 10-like scenario post, written out. -/
def c1scored1 : PostMetrics :=
  { c1raw "p1" 10 with
    engagement_rate := 1.5
    comment_rate := 0.5
    benchmark_delta := -1.5
    composite_score := 40 }

/-- The scored form of the 50-like scenario post, written out. -/
def c1scored2 : PostMetrics :=
  { c1raw "p2" 50 with
    engagement_rate := 5.5
    comment_rate := 0.5
    benchmark_delta := 2.5
    composite_score := 65 }

/-- The scored form of the 100-like scenario post, written out. -/
def c1scored3 : PostMetrics :=
  { c1raw "p3" 100 with
    engagement_rate := 10.5
    comment_rate := 0.5
    benchmark_delta := 7.5
    composite_score := 65 }

lemma c1_eval1 : scorePost (computeRates (c1raw "p1" 10)) = c1scored1 := by
  norm_num [c1raw, c1scored1, computeRates, scorePost, rateBase,
    nicheBenchmarksGet, ttbpBench, platformScale, engComponent,
    cappedComponent, round2, round1, round_eq, min_def]

lemma c1_eval2 : scorePost (computeRates (c1raw "p2" 50)) = c1scored2 := by
  norm_num [c1raw, c1scored2, computeRates, scorePost, rateBase,
    nicheBenchmarksGet, ttbpBench, platformScale, engComponent,
    cappedComponent, round2, round1, round_eq, min_def]

lemma c1_eval3 : scorePost (computeRates (c1raw "p3" 100)) = c1scored3 := by
  norm_num [c1raw, c1scored3, computeRates, scorePost, rateBase,
    nicheBenchmarksGet, ttbpBench, platformScale, engComponent,
    cappedComponent, round2, round1, round_eq, min_def]

lemma c1posts_eval : c1posts = [c1scored1, c1scored2, c1scored3] := by
  rw [c1posts, c1_eval1, c1_eval2, c1_eval3]

/-- C1 fails as stated: the 50-like and 100-like posts both hit the score
caps, so the composite scores are not strictly increasing with likes, and
the stable descending sort puts the tied 50-like post — not the 100-like
post — at `top_performers[0]`. -/
theorem c1_scenario_counterexample :
    (scorePost (computeRates (c1raw "p2" 50))).composite_score =
      (scorePost (computeRates (c1raw "p3" 100))).composite_score ∧
    ((analyzeNiche parseDateISO parseDTEmpty c1posts "ttbp" "linkedin").map
      (fun perf => perf.top_performers.map (fun p => p.post_id))) =
      some ["p2", "p3", "p1"] := by
  constructor
  · rw [c1_eval2, c1_eval3]
    rfl
  · rw [c1posts_eval]
    norm_num [analyzeNiche, c1scored1, c1scored2, c1scored3, c1raw,
      sortByScoreDesc, insertByScore]

/-- C1 amended: engagement rates are [1.5, 5.5, 10.5]; composite scores
are [40, 65, 65] — non-decreasing but not strictly increasing, because the
component caps bind; `top_performers[0]` is the 50-like post (first of the
two tied posts, by sort stability), with the 100-like post second. -/
theorem c1_scenario_amended :
    c1posts.map (fun p => p.engagement_rate) = [1.5, 5.5, 10.5] ∧
    c1posts.map (fun p => p.composite_score) = [40, 65, 65] ∧
    ((analyzeNiche parseDateISO parseDTEmpty c1posts "ttbp" "linkedin").map
      (fun perf => perf.top_performers.map (fun p => (p.post_id, p.likes)))) =
      some [("p2", 50), ("p3", 100), ("p1", 10)] := by
  refine ⟨?_, ?_, ?_⟩ <;> rw [c1posts_eval] <;>
    norm_num [analyzeNiche, c1scored1, c1scored2, c1scored3, c1raw,
      sortByScoreDesc, insertByScore]

/-! ### C10: top and bottom performers overlap on small groups -/

lemma take_drop_overlap {α : Type} (S : List α) (hne : 0 < S.length)
    (h6 : S.length < 6) :
    ∃ x, x ∈ S.take 3 ∧ x ∈ (S.drop (S.length - 3)).reverse := by
  have hi : S.length - 3 < S.length := by omega
  have hi3 : S.length - 3 < 3 := by omega
  refine ⟨S.get ⟨S.length - 3, hi⟩, ?_, ?_⟩
  · have h1 : S.length - 3 < (S.take 3).length := by
      simp [List.length_take]
      omega
    have h2 : (S.take 3).get ⟨S.length - 3, h1⟩ = S.get ⟨S.length - 3, hi⟩ := by
      simp [List.getElem_take]
    exact h2 ▸ List.get_mem _ _ _
  · rw [List.mem_reverse]
    have h3 : 0 < (S.drop (S.length - 3)).length := by
      simp [List.length_drop]
      omega
    have h4 : (S.drop (S.length - 3)).get ⟨0, h3⟩ = S.get ⟨S.length - 3, hi⟩ := by
      simp [List.getElem_drop']
    exact h4 ▸ List.get_mem _ _ _

/-- C10: whenever `_analyze_niche` produces a summary for a group of
fewer than six posts, `top_performers` and `bottom_performers` (head and
reversed tail of the same descending sort) share at least one post, and
for a group of at most three posts `bottom_performers` is exactly the
reversal of `top_performers`. -/
theorem c10_top_bottom_overlap (parseDate : String → Option ℤ)
    (parseDT : String → Option (ℕ × ℕ)) (posts : List PostMetrics)
    (niche platform : String) (perf : NichePerformance)
    (h : analyzeNiche parseDate parseDT posts niche platform = some perf) :
    (perf.post_count < 6 →
      ∃ x, x ∈ perf.top_performers ∧ x ∈ perf.bottom_performers) ∧
    (perf.post_count ≤ 3 →
      perf.bottom_performers = perf.top_performers.reverse) := by
  simp only [analyzeNiche] at h
  split at h
  · exact absurd h (by simp)
  · rename_i hne
    have hR := Option.some.inj h
    subst hR
    simp only
    set filtered := posts.filter
      (fun p => decide (p.niche = niche ∧ p.platform = platform)) with hf
    have hlen : (sortByScoreDesc filtered).length = filtered.length :=
      length_sortByScoreDesc filtered
    have hpos : 0 < filtered.length := by
      cases hcf : filtered with
      | nil => rw [hcf] at hne; simp at hne
      | cons a l => simp [hcf]
    constructor
    · intro hcount
      rw [← hlen] at hcount hpos
      exact take_drop_overlap _ hpos (by omega)
    · intro hcount
      rw [← hlen] at hcount
      have h0 : (sortByScoreDesc filtered).length - 3 = 0 := by omega
      rw [h0, List.drop_zero, List.take_of_length_le hcount]

/-- Concrete single post used by the C10 witness. -/
def w10post : PostMetrics :=
  { post_id := "q"
    niche := "ttbp"
    platform := "linkedin" }

/-- Default-valued `NichePerformance` used only to name the result of
`analyzeNiche` in the C10 witness. -/
def emptyPerf : NichePerformance :=
  { niche := ""
    platform := ""
    period_start := none
    period_end := none
    post_count := 0
    avg_engagement_rate := 0
    median_engagement_rate := 0
    benchmark_target := 0
    benchmark_status := ""
    top_performers := []
    bottom_performers := []
    format_breakdown := []
    best_format := ""
    worst_format := ""
    timing_insights := []
    best_day := ""
    best_hour := ""
    patterns := []
    hashtag_performance := []
    recommendations := []
    trend := ""
    trend_delta := 0 }

/-- Witness for C10: a one-post group, whose bottom performers are the
reversed top performers. -/
theorem c10_witness :
    ((analyzeNiche parseDateISO parseDTEmpty [w10post] "ttbp" "linkedin").getD
      emptyPerf).post_count ≤ 3 ∧
    ((analyzeNiche parseDateISO parseDTEmpty [w10post] "ttbp" "linkedin").getD
      emptyPerf).bottom_performers =
    (((analyzeNiche parseDateISO parseDTEmpty [w10post] "ttbp" "linkedin").getD
      emptyPerf).top_performers).reverse := by
  have h : analyzeNiche parseDateISO parseDTEmpty [w10post] "ttbp" "linkedin" =
      some ((analyzeNiche parseDateISO parseDTEmpty [w10post] "ttbp"
        "linkedin").getD emptyPerf) := by rfl
  have hc : ((analyzeNiche parseDateISO parseDTEmpty [w10post] "ttbp"
      "linkedin").getD emptyPerf).post_count = 1 := by rfl
  refine ⟨by rw [hc]; norm_num, ?_⟩
  exact (c10_top_bottom_overlap parseDateISO parseDTEmpty [w10post] "ttbp"
    "linkedin" _ h).2 (by rw [hc]; norm_num)

/-! ### C2: the period filter (`_filter_by_period`) -/

/-- The date-window pass of `_filter_by_period`, before the empty-result
fallback: keep a post when its parsed publish date is at least `cutoff`,
and always keep posts whose date does not parse. -/
def filterCore (parseDate : String → Option ℤ) (posts : List PostMetrics)
    (cutoff : ℤ) : List PostMetrics :=
  posts.filter (fun p =>
    match parseDate p.published_at with
    | some d => decide (cutoff ≤ d)
    | none => true)

/-- `_filter_by_period`.  `now` models `datetime.now()`; the final
`result or posts` is the empty-result fallback. -/
def filterByPeriod (parseDate : String → Option ℤ) (posts : List PostMetrics)
    (period : String) (now : ℤ) : List PostMetrics :=
  if period = "all" then posts
  else
    let cutoff := now - (if period = "week" then 7 else 30)
    let result := filterCore parseDate posts cutoff
    if result.isEmpty then posts else result

lemma filterByPeriod_week (pd : String → Option ℤ) (posts : List PostMetrics)
    (now : ℤ) :
    filterByPeriod pd posts "week" now =
      if (filterCore pd posts (now - 7)).isEmpty then posts
      else filterCore pd posts (now - 7) := by
  simp [filterByPeriod]

lemma filterByPeriod_month (pd : String → Option ℤ) (posts : List PostMetrics)
    (now : ℤ) :
    filterByPeriod pd posts "month" now =
      if (filterCore pd posts (now - 30)).isEmpty then posts
      else filterCore pd posts (now - 30) := by
  simp [filterByPeriod]

/-- Scenario post published 40 days before the reference time used in the
C2 counterexample. -/
def c2postA : PostMetrics :=
  { post_id := "a"
    niche := "ttbp"
    platform := "linkedin"
    published_at := "2026-09-01" }

/-- Scenario post published 20 days before the reference time used in the
C2 counterexample. -/
def c2postB : PostMetrics :=
  { post_id := "b"
    niche := "ttbp"
    platform := "linkedin"
    published_at := "2026-09-21" }

/-- Reference "now" of the C2 counterexample: 40 days after `c2postA` and
20 days after `c2postB` in the day encoding of `parseDateISO`. -/
def c2now : ℤ := 372 * 2026 + 31 * 9 + 41

/-- C2 fails as stated: with one post 40 days old and one 20 days old,
the week filter matches nothing and falls back to the whole input, while
the month filter returns only the 20-day-old post — so the "week" result
is not a subset of the "month" result. -/
theorem c2_period_filter_counterexample :
    c2postA ∈ filterByPeriod parseDateISO [c2postA, c2postB] "week" c2now ∧
    c2postA ∉ filterByPeriod parseDateISO [c2postA, c2postB] "month" c2now := by
  constructor <;> decide

/-- C2 amended: filtering by "all" is the identity; posts with
unparseable dates are always kept; the fallback returns the unfiltered
input exactly when the date-window pass is empty; every result is a
subset of the input ("all"); and the "week" result is a subset of the
"month" result whenever the week date-window pass is nonempty (the
empty-result fallback is the single exception to the subset chain). -/
theorem c2_period_filter_amended :
    (∀ (pd : String → Option ℤ) (posts : List PostMetrics) (now : ℤ),
      filterByPeriod pd posts "all" now = posts) ∧
    (∀ (pd : String → Option ℤ) (posts : List PostMetrics) (period : String)
      (now : ℤ) (p : PostMetrics), p ∈ posts → pd p.published_at = none →
      p ∈ filterByPeriod pd posts period now) ∧
    (∀ (pd : String → Option ℤ) (posts : List PostMetrics) (now : ℤ),
      filterCore pd posts (now - 7) ≠ [] →
      ∀ p ∈ filterByPeriod pd posts "week" now,
        p ∈ filterByPeriod pd posts "month" now) ∧
    (∀ (pd : String → Option ℤ) (posts : List PostMetrics) (period : String)
      (now : ℤ), ∀ p ∈ filterByPeriod pd posts period now, p ∈ posts) ∧
    (∀ (pd : String → Option ℤ) (posts : List PostMetrics) (period : String)
      (now : ℤ), period ≠ "all" →
      filterCore pd posts (now - (if period = "week" then 7 else 30)) = [] →
      filterByPeriod pd posts period now = posts) := by
  refine ⟨?_, ?_, ?_, ?_, ?_⟩
  · intro pd posts now
    simp [filterByPeriod]
  · intro pd posts period now p hp hnone
    simp only [filterByPeriod]
    split_ifs <;>
      first
      | exact hp
      | (unfold filterCore
         refine List.mem_filter.mpr ⟨hp, ?_⟩
         simp [hnone])
  · intro pd posts now hne p hp
    rw [filterByPeriod_week, if_neg (by simpa [List.isEmpty_iff] using hne)] at hp
    unfold filterCore at hp
    obtain ⟨hin, hpred⟩ := List.mem_filter.mp hp
    have hpredM : (match pd p.published_at with
        | some d => decide (now - 30 ≤ d)
        | none => true) = true := by
      cases hd : pd p.published_at with
      | none => simp
      | some d =>
        rw [hd] at hpred
        simp only [decide_eq_true_eq] at hpred ⊢
        omega
    have hpM : p ∈ filterCore pd posts (now - 30) := by
      unfold filterCore
      exact List.mem_filter.mpr ⟨hin, hpredM⟩
    rw [filterByPeriod_month,
      if_neg (by simpa [List.isEmpty_iff] using List.ne_nil_of_mem hpM)]
    exact hpM
  · intro pd posts period now p hp
    simp only [filterByPeriod] at hp
    split_ifs at hp <;>
      first
      | exact hp
      | (unfold filterCore at hp
         exact (List.mem_filter.mp hp).1)
  · intro pd posts period now hall hcore
    simp only [filterByPeriod]
    rw [if_neg hall, hcore]
    simp

/-- Recent post used by the C2 witness. -/
def c2postC : PostMetrics :=
  { post_id := "c"
    niche := "ttbp"
    platform := "linkedin"
    published_at := "2026-10-10" }

/-- Reference "now" of the C2 witness (2026-10-12 in the day encoding). -/
def c2nowW : ℤ := 372 * 2026 + 31 * 10 + 12

/-- Witness for C2: "all" is the identity on a concrete list, and the
week-to-month subset inclusion applied at a concrete post whose week
date-window pass is nonempty. -/
theorem c2_witness :
    filterByPeriod parseDateISO [c2postC] "all" c2nowW = [c2postC] ∧
    c2postC ∈ filterByPeriod parseDateISO [c2postC] "month" c2nowW :=
  ⟨c2_period_filter_amended.1 parseDateISO [c2postC] c2nowW,
   c2_period_filter_amended.2.2.1 parseDateISO [c2postC] c2nowW (by decide)
     c2postC (by decide)⟩

/-! ### C9: the history append (`_save_to_history`) -/

/-- `existing_ids`-style projection: the post ids of a stored history. -/
def historyIds (l : List PostMetrics) : List String :=
  l.map (fun p => p.post_id)

/-- The pure content of `_save_to_history`: read history, append the
posts whose `post_id` is not already present, write back.  File handling
is abstracted into the explicit `history` argument. -/
def saveToHistory (history posts : List PostMetrics) : List PostMetrics :=
  history ++ posts.filter (fun p => decide (p.post_id ∉ historyIds history))

lemma historyIds_append (x y : List PostMetrics) :
    historyIds (x ++ y) = historyIds x ++ historyIds y := by
  simp [historyIds]

/-- Duplicate-id post used by the C9 counterexample. -/
def c9dup : PostMetrics :=
  { post_id := "d"
    niche := "ttbp"
    platform := "linkedin" }

/-- C9 fails as stated on a batch that itself contains the same post_id
twice: `_save_to_history` deduplicates only against the stored history,
so both copies are appended and the post_id count jumps from 0 to 2,
exceeding "at most as often as before plus one". -/
theorem c9_history_append_counterexample :
    (historyIds (saveToHistory [] [c9dup, c9dup])).count "d" = 2 ∧
    ¬ ((historyIds (saveToHistory [] [c9dup, c9dup])).count "d" ≤
        (historyIds ([] : List PostMetrics)).count "d" + 1) := by
  constructor <;> decide

/-- C9 amended: appending the same batch twice equals appending it once;
a post whose post_id already occurs in the stored history is skipped (its
count is unchanged); the stored history survives unmodified as the front
of the result; and — provided the batch contains no two posts with the
same post_id — each post_id occurs at most once more than before. -/
theorem c9_history_append_amended :
    (∀ h b : List PostMetrics,
      saveToHistory (saveToHistory h b) b = saveToHistory h b) ∧
    (∀ (h b : List PostMetrics) (p : PostMetrics), p ∈ b →
      p.post_id ∈ historyIds h →
      (historyIds (saveToHistory h b)).count p.post_id =
        (historyIds h).count p.post_id) ∧
    (∀ h b : List PostMetrics, (saveToHistory h b).take h.length = h) ∧
    (∀ h b : List PostMetrics, (historyIds b).Nodup →
      ∀ pid : String, (historyIds (saveToHistory h b)).count pid ≤
        (historyIds h).count pid + 1) := by
  refine ⟨?_, ?_, ?_, ?_⟩
  · intro h b
    unfold saveToHistory
    have hnil : b.filter (fun p => decide (p.post_id ∉ historyIds
        (h ++ b.filter (fun p => decide (p.post_id ∉ historyIds h))))) = [] := by
      rw [List.filter_eq_nil_iff]
      intro p hp
      simp only [decide_eq_true_eq, Decidable.not_not]
      rw [historyIds, List.map_append]
      by_cases hid : p.post_id ∈ historyIds h
      · exact List.mem_append_left _ hid
      · refine List.mem_append_right _ ?_
        have hpF : p ∈ b.filter (fun p => decide (p.post_id ∉ historyIds h)) :=
          List.mem_filter.mpr ⟨hp, by simpa using hid⟩
        exact List.mem_map.mpr ⟨p, hpF, rfl⟩
    rw [hnil, List.append_nil]
  · intro h b p hp hid
    rw [saveToHistory, historyIds_append, List.count_append]
    have hzero : (historyIds (b.filter
        (fun p => decide (p.post_id ∉ historyIds h)))).count p.post_id = 0 := by
      rw [List.count_eq_zero]
      intro hmem
      rw [historyIds] at hmem
      obtain ⟨q, hq, hqe⟩ := List.mem_map.mp hmem
      have hq2 := (List.mem_filter.mp hq).2
      simp only [decide_eq_true_eq] at hq2
      exact hq2 (hqe ▸ hid)
    rw [hzero]
    omega
  · intro h b
    unfold saveToHistory
    exact List.take_left h _
  · intro h b hnd pid
    rw [saveToHistory, historyIds_append, List.count_append]
    have hsub : (historyIds (b.filter
        (fun p => decide (p.post_id ∉ historyIds h)))).count pid ≤
        (historyIds b).count pid := by
      simp only [historyIds]
      exact ((List.filter_sublist b).map (fun p => p.post_id)).count_le pid
    have hone : (historyIds b).count pid ≤ 1 :=
      List.nodup_iff_count_le_one.mp hnd pid
    omega

/-- Already-stored post used by the C9 witness. -/
def c9e1 : PostMetrics :=
  { post_id := "e1"
    niche := "ttbp"
    platform := "linkedin" }

/-- Fresh post used by the C9 witness. -/
def c9e2 : PostMetrics :=
  { post_id := "e2"
    niche := "ttbp"
    platform := "linkedin" }

/-- Witness for C9: the amended statement applied at a concrete history
and batch, discharging the membership and no-duplicate hypotheses. -/
theorem c9_witness :
    (saveToHistory (saveToHistory [c9e1] [c9e1, c9e2]) [c9e1, c9e2] =
      saveToHistory [c9e1] [c9e1, c9e2]) ∧
    (historyIds (saveToHistory [c9e1] [c9e1, c9e2])).count "e1" =
      (historyIds [c9e1]).count "e1" ∧
    (historyIds (saveToHistory [c9e1] [c9e1, c9e2])).count "e2" ≤
      (historyIds [c9e1]).count "e2" + 1 :=
  ⟨c9_history_append_amended.1 [c9e1] [c9e1, c9e2],
   c9_history_append_amended.2.1 [c9e1] [c9e1, c9e2] c9e1 (by decide) (by decide),
   c9_history_append_amended.2.2.2 [c9e1] [c9e1, c9e2] (by decide) "e2"⟩

/-! ### C3: overall recommendation aggregation in `summarize_week` -/

/-- The recommendation aggregation of `summarize_week` (the
`all_recs`/`seen_recs` loops and the final `[:8]` cap), over the per-niche
recommendation lists in niche-processing order and the competitor
suggestion strings.  The state is `(seen_recs, all_recs)`.  Note the
competitor branch of the source checks `seen_recs` but never adds to it. -/
def overallRecommendations (perfRecs : List (List String))
    (compSuggestions : List String) : List String :=
  let sa := perfRecs.foldl (fun sa recs =>
    recs.foldl (fun sa r =>
      if r ∈ sa.1 then sa else (sa.1 ++ [r], sa.2 ++ [r])) sa)
    (([] : List String), ([] : List String))
  let final := compSuggestions.foldl (fun sa s =>
    if ("[competitor] " ++ s) ∈ sa.1 then sa
    else (sa.1, sa.2 ++ ["[competitor] " ++ s])) sa
  final.2.take 8

/-- C3: duplicate competitor suggestions are not removed — the loop tests
`seen_recs` but never inserts competitor suggestions into it, so two
competitors with the same suggested response (here the "Comparable
performance" message both produce when |delta| ≤ 0.5) yield a duplicated
entry in `overall_recommendations`, contradicting the deduplication the
code's own "aggregate + de-dup" comment and the spec promise. -/
theorem c3_overall_recs_duplicate_bug :
    overallRecommendations [] ["Comparable performance", "Comparable performance"] =
      ["[competitor] Comparable performance",
       "[competitor] Comparable performance"] ∧
    ¬ (overallRecommendations []
        ["Comparable performance", "Comparable performance"]).Nodup := by
  constructor <;> decide

/-! ### C4: the ContentStudio record normalizer -/

/-- Values that can sit in a ContentStudio JSON row under our model:
strings, integers, JSON null, and string lists (for `hashtags`). -/
inductive PyVal where
  | str (s : String)
  | int (n : ℤ)
  | null
  | strList (l : List String)
deriving DecidableEq

/-- Python `str(val)` for the modelled values (the string-list rendering
is only ever fed to `int(...)`, which fails on it, so its exact shape is
immaterial). -/
def pyStr : PyVal → String
  | .str s => s
  | .int n => toString n
  | .null => "None"
  | .strList l => "[" ++ String.intercalate ", " l ++ "]"

/-- Python `int(s)` on a comma-stripped, whitespace-trimmed string:
an optional sign followed by at least one digit (digit-group underscores
are not modelled). -/
def parseIntChars : List Char → Option ℤ
  | [] => none
  | '-' :: rest => (digitsToNat? rest).map (fun n => -(n : ℤ))
  | '+' :: rest => (digitsToNat? rest).map (fun n => (n : ℤ))
  | l => (digitsToNat? l).map (fun n => (n : ℤ))

/-- `.strip()` on the character list. -/
def stripChars (l : List Char) : List Char :=
  ((l.dropWhile Char.isWhitespace).reverse.dropWhile Char.isWhitespace).reverse

/-- `int(str(val).replace(",", "").strip())`, as an `Option`. -/
def safeIntChars (l : List Char) : Option ℤ :=
  parseIntChars (stripChars (l.filter (fun c => c ≠ ',')))

/-- `_safe_int`: total, substituting 0 when the parse fails. -/
def safeInt (v : PyVal) : ℤ :=
  match safeIntChars (pyStr v).data with
  | some n => n
  | none => 0

/-- A ContentStudio row: an insertion-ordered dict with unique keys,
modelled as an association list (first match wins). -/
abbrev CSItem := List (String × PyVal)

/-- `item[k]` when present (`dict.get` without default). -/
def lookupVal (item : CSItem) (k : String) : Option PyVal :=
  match item.find? (fun kv => kv.1 = k) with
  | some kv => some kv.2
  | none => none

/-- `item.get(k, d)`. -/
def pyGetD (item : CSItem) (k : String) (d : PyVal) : PyVal :=
  (lookupVal item k).getD d

/-- Requires a string value; `none` models the `AttributeError` Python
would raise on calling a string method on a non-string. -/
def asStr : PyVal → Option String
  | .str s => some s
  | _ => none

/-- `.lower()`. -/
def lowerStr (s : String) : String := ⟨s.data.map Char.toLower⟩

/-- Prefix test on character lists, for the substring test below. -/
def leadsWith : List Char → List Char → Bool
  | [], _ => true
  | _ :: _, [] => false
  | x :: xs, y :: ys => x = y && leadsWith xs ys

/-- Substring occurrence test on character lists. -/
def hasSub (pat : List Char) : List Char → Bool
  | [] => leadsWith pat []
  | y :: ys => leadsWith pat (y :: ys) || hasSub pat ys

/-- Python `pat in hay` on strings. -/
def containsSub (hay pat : String) : Bool := hasSub pat.data hay.data

/-- The `NICHE_BENCHMARKS` table in its Python iteration order. -/
def nicheOrder : List (String × NicheBenchmark) :=
  [("ttbp", ttbpBench), ("cb", cbBench), ("tundexai", tundexaiBench),
   ("wellwithtunde", wellwithtundeBench), ("tundestalksmen", tundestalksmenBench)]

/-- `_detect_niche`: count pillar keywords occurring in the lower-cased
content; among niches with a nonzero count, the first one attaining the
maximal count wins; default "ttbp". -/
def detectNiche (content : String) : String :=
  let text := lowerStr content
  let scores := (nicheOrder.map (fun nb =>
    (nb.1, (nb.2.pillars.filter (fun pl => containsSub text pl)).length))).filter
    (fun ns => ns.2 > 0)
  match scores.foldl (fun best ns =>
    match best with
    | none => some ns
    | some b => if ns.2 > b.2 then some ns else best) none with
  | some b => b.1
  | none => "ttbp"

/-- `_extract_hook`: first nonblank line, truncated to 120 characters. -/
def extractHook (content : String) : String :=
  match ((content.splitOn "\n").map (fun ln => ln.trim)).filter
      (fun ln => ln ≠ "") with
  | l :: _ => l.take 120
  | [] => content.take 120

/-- The `item.get("niche") or _detect_niche(content)` resolution.  A
present value that is neither a string nor null is outside the model
(`none`); no claim concerns that case. -/
def nicheSlot (item : CSItem) (content : String) : Option String :=
  match lookupVal item "niche" with
  | none => some (detectNiche content)
  | some PyVal.null => some (detectNiche content)
  | some (PyVal.str s) => some (if s = "" then detectNiche content else s)
  | some (PyVal.int _) => none
  | some (PyVal.strList _) => none

/-- `hashtags=item.get("hashtags", [])` (a present non-list value is
normalized to `[]`; no claim concerns that case). -/
def hashtagsSlot (item : CSItem) : List String :=
  match lookupVal item "hashtags" with
  | some (PyVal.strList l) => l
  | _ => []

/-- The per-item body of `_parse_contentstudio_json`, including the final
`_score_post(_compute_rates(p))`.  The regex-driven `_detect_format` is
abstracted as the `detectFormat` parameter.  `none` models a raised
exception (string method on a non-string slot). -/
def parseContentstudioItem (detectFormat : String → String) (item : CSItem) :
    Option PostMetrics :=
  match asStr (pyGetD item "message"
      (pyGetD item "content" (pyGetD item "caption" (PyVal.str "")))) with
  | none => none
  | some content =>
    match nicheSlot item content with
    | none => none
    | some niche =>
      match asStr (pyGetD item "platform"
          (pyGetD item "social_account_type" (PyVal.str "linkedin"))) with
      | none => none
      | some platRaw =>
        some (scorePost (computeRates
          { post_id := pyStr (pyGetD item "id" (pyGetD item "post_id" (PyVal.str "")))
            niche := niche
            platform := lowerStr platRaw
            published_at := pyStr (pyGetD item "published_at"
              (pyGetD item "created_at" (PyVal.str "")))
            content_preview := content.take 120
            format_type := detectFormat content
            hook_words := extractHook content
            impressions := safeInt (pyGetD item "impressions" (pyGetD item "reach" (PyVal.int 0)))
            reach := safeInt (pyGetD item "reach" (PyVal.int 0))
            likes := safeInt (pyGetD item "likes" (pyGetD item "reactions" (PyVal.int 0)))
            comments := safeInt (pyGetD item "comments" (PyVal.int 0))
            shares := safeInt (pyGetD item "shares" (pyGetD item "reposts" (PyVal.int 0)))
            saves := safeInt (pyGetD item "saves" (pyGetD item "bookmarks" (PyVal.int 0)))
            clicks := safeInt (pyGetD item "link_clicks" (pyGetD item "clicks" (PyVal.int 0)))
            hashtags := hashtagsSlot item }))

/-- The rows on which the normalizer performs no string method call on a
non-string: the content slot resolves to a string, the niche slot is
absent, null or a string, and the platform slot resolves to a string.
Numeric slots may hold anything. -/
def slotsOK (item : CSItem) : Bool :=
  (asStr (pyGetD item "message"
    (pyGetD item "content" (pyGetD item "caption" (PyVal.str ""))))).isSome &&
  (match lookupVal item "niche" with
   | none => true
   | some PyVal.null => true
   | some (PyVal.str _) => true
   | some (PyVal.int _) => false
   | some (PyVal.strList _) => false) &&
  (asStr (pyGetD item "platform"
    (pyGetD item "social_account_type" (PyVal.str "linkedin")))).isSome

lemma nicheSlot_isSome (item : CSItem) (content : String)
    (h : (match lookupVal item "niche" with
          | none => true
          | some PyVal.null => true
          | some (PyVal.str _) => true
          | some (PyVal.int _) => false
          | some (PyVal.strList _) => false) = true) :
    ∃ n, nicheSlot item content = some n := by
  unfold nicheSlot
  cases hlv : lookupVal item "niche" with
  | none => exact ⟨_, rfl⟩
  | some v =>
    cases v with
    | str s => exact ⟨_, rfl⟩
    | null => exact ⟨_, rfl⟩
    | int n => rw [hlv] at h; simp at h
    | strList l => rw [hlv] at h; simp at h

/-- Row with an unknown platform string used by the C4 counterexample. -/
def c4item : CSItem :=
  [("platform", PyVal.str "TikTok"), ("message", PyVal.str "hello")]

/-- C4 fails as stated: a row whose platform is the unknown string
"TikTok" yields a `PostMetrics` whose platform is "tiktok" (lower-cased,
kept as-is), not "linkedin" — only a missing platform defaults. -/
theorem c4_normalizer_counterexample :
    ((parseContentstudioItem (fun _ => "narrative") c4item).map
      (fun p => p.platform)) = some "tiktok" ∧
    ("tiktok" : String) ≠ "linkedin" := by
  constructor <;> decide

/-- C4 amended: on every row whose content, niche and platform slots are
string-compatible, the normalizer returns a record (never raises); every
numeric field is `_safe_int` of its slot, and `_safe_int` substitutes 0
whenever the cleaned string fails to parse as an integer; a row whose
platform and social_account_type keys are both absent gets platform
"linkedin" (an unknown platform string is kept, lower-cased). -/
theorem c4_normalizer_amended :
    (∀ (df : String → String) (item : CSItem), slotsOK item = true →
      (parseContentstudioItem df item).isSome = true) ∧
    (∀ v : PyVal, safeIntChars (pyStr v).data = none → safeInt v = 0) ∧
    (∀ (df : String → String) (item : CSItem),
      (parseContentstudioItem df item).map (fun p => p.likes) =
        (parseContentstudioItem df item).map (fun _ =>
          safeInt (pyGetD item "likes" (pyGetD item "reactions" (PyVal.int 0))))) ∧
    (∀ (df : String → String) (item : CSItem),
      lookupVal item "platform" = none →
      lookupVal item "social_account_type" = none →
      (parseContentstudioItem df item).map (fun p => p.platform) =
        (parseContentstudioItem df item).map (fun _ => "linkedin")) := by
  refine ⟨?_, ?_, ?_, ?_⟩
  · intro df item h
    unfold slotsOK at h
    simp only [Bool.and_eq_true] at h
    obtain ⟨⟨hcont, hniche⟩, hplat⟩ := h
    unfold parseContentstudioItem
    cases hc : asStr (pyGetD item "message"
        (pyGetD item "content" (pyGetD item "caption" (PyVal.str "")))) with
    | none => rw [hc] at hcont; simp at hcont
    | some content =>
      dsimp only
      obtain ⟨n, hn⟩ := nicheSlot_isSome item content hniche
      rw [hn]
      dsimp only
      cases hp : asStr (pyGetD item "platform"
          (pyGetD item "social_account_type" (PyVal.str "linkedin"))) with
      | none => rw [hp] at hplat; simp at hplat
      | some platRaw => rfl
  · intro v hfail
    unfold safeInt
    rw [hfail]
  · intro df item
    unfold parseContentstudioItem
    cases asStr (pyGetD item "message"
        (pyGetD item "content" (pyGetD item "caption" (PyVal.str "")))) with
    | none => rfl
    | some content =>
      dsimp only
      cases nicheSlot item content with
      | none => rfl
      | some niche =>
        dsimp only
        cases asStr (pyGetD item "platform"
            (pyGetD item "social_account_type" (PyVal.str "linkedin"))) with
        | none => rfl
        | some platRaw => rfl
  · intro df item hp1 hp2
    unfold parseContentstudioItem
    cases asStr (pyGetD item "message"
        (pyGetD item "content" (pyGetD item "caption" (PyVal.str "")))) with
    | none => rfl
    | some content =>
      dsimp only
      cases nicheSlot item content with
      | none => rfl
      | some niche =>
        dsimp only
        have hres : pyGetD item "platform"
            (pyGetD item "social_account_type" (PyVal.str "linkedin")) =
            PyVal.str "linkedin" := by
          unfold pyGetD
          rw [hp1, hp2]
          rfl
        rw [hres]
        have hlow : lowerStr "linkedin" = "linkedin" := by decide
        simp only [asStr]
        simp [scorePost, computeRates, hlow]

/-- Row with malformed numeric fields and no platform keys, used by the
C4 witness. -/
def c4item2 : CSItem :=
  [("likes", PyVal.str "abc"), ("comments", PyVal.str "1,234")]

/-- Witness for C4: the amended statement applied at a concrete row whose
likes slot is the unparseable string "abc" and whose platform keys are
absent. -/
theorem c4_witness :
    slotsOK c4item2 = true ∧
    (parseContentstudioItem (fun _ => "narrative") c4item2).isSome = true ∧
    safeIntChars (pyStr (PyVal.str "abc")).data = none ∧
    safeInt (PyVal.str "abc") = 0 ∧
    safeInt (PyVal.str "1,234") = 1234 ∧
    (parseContentstudioItem (fun _ => "narrative") c4item2).map
      (fun p => p.platform) =
      (parseContentstudioItem (fun _ => "narrative") c4item2).map
        (fun _ => "linkedin") :=
  ⟨by decide,
   c4_normalizer_amended.1 (fun _ => "narrative") c4item2 (by decide),
   by decide,
   c4_normalizer_amended.2.1 (PyVal.str "abc") (by decide),
   by decide,
   c4_normalizer_amended.2.2.2 (fun _ => "narrative") c4item2 (by decide) (by decide)⟩

end AnalyticsSummarizer
